import Mathlib

/-!
# BansheeEngine: context menu state machine and texture creation front

Shallow embedding of

* `BansheeEngine/Source/BsGUIContextMenu.cpp` (constructor, destructor, `open`, `close`,
  `onMenuClosed`), with the two singletons it drives (`GUIDropDownBoxManager::instance()` and
  `GUIManager::instance()`) modelled as recorders of the calls made to them;
* `BansheeCore/Include/BsTextureManager.h` (the two `createTexture` overloads).
-/

namespace BansheeEngine

/-! ## Data model of the context menu and its collaborators -/

/-- Integer 2D point (`Int2`), the `position` argument of `GUIContextMenu::open`. -/
structure Int2 where
  x : Int
  y : Int
  deriving DecidableEq, Repr

/-- Placement descriptor of a drop down area. The only factory the context menu uses is the
static `GUIDropDownAreaPlacement::aroundPosition(position)`; it is kept uninterpreted. -/
inductive GUIDropDownAreaPlacement where
  | aroundPosition (position : Int2)
  deriving DecidableEq, Repr

/-- Kind of drop down box requested from the drop down manager. The context menu only ever
passes `GUIDropDownType::ContextMenu`; every other enumerator is folded into `other`. -/
inductive GUIDropDownType where
  | ContextMenu
  | other (tag : Nat)
  deriving DecidableEq, Repr

/-- The part of a `GUIWidget` that `open` reads: `getTarget()`, `getOwnerWindow()`, `getSkin()`.
The three objects are identified by opaque numbers. -/
structure GUIWidget where
  target : Nat
  ownerWindow : Nat
  skin : Nat
  deriving DecidableEq, Repr

def GUIWidget.getTarget (widget : GUIWidget) : Nat := widget.target

def GUIWidget.getOwnerWindow (widget : GUIWidget) : Nat := widget.ownerWindow

def GUIWidget.getSkin (widget : GUIWidget) : Nat := widget.skin

/-- A member function of the menu bound to `this`:
`boost::bind(&GUIContextMenu::close, this)` and `boost::bind(&GUIContextMenu::onMenuClosed, this)`. -/
inductive BoundCallback where
  | close
  | onMenuClosed
  deriving DecidableEq, Repr

/-- Handle of a drop down box (`GameObjectHandle<GUIDropDownBox>`), identified by a number. -/
structure GameObjectHandle where
  instanceId : Nat
  deriving DecidableEq, Repr

/-- The raw object a handle refers to (`dropDownBox.get()`), identified by the same number. -/
def GameObjectHandle.get (h : GameObjectHandle) : Nat := h.instanceId

/-- One call made to a collaborator, with the arguments in the order of the C++ signature. -/
inductive Call where
  | openDropDownBox (target : Nat) (window : Nat) (placement : GUIDropDownAreaPlacement)
      (dropDownData : Nat) (skin : Nat) (type : GUIDropDownType) (onClosedCallback : BoundCallback)
  | closeDropDownBox
  | enableSelectiveInput (onOutsideClickCallback : BoundCallback)
  | addSelectiveInputWidget (widget : Nat)
  | disableSelectiveInput
  deriving DecidableEq, Repr

/-- The `GUIContextMenu` object: the `GUIMenu` base is represented by the drop down data that
`getDropDownData()` returns, followed by the one member the class adds. -/
structure GUIContextMenu where
  dropDownData : Nat
  mContextMenuOpen : Bool
  deriving DecidableEq, Repr

def GUIContextMenu.getDropDownData (menu : GUIContextMenu) : Nat := menu.dropDownData

/-- The menu together with the observable state of its two collaborators:
* `calls`: every call received by `GUIDropDownBoxManager::instance()` or `GUIManager::instance()`,
  oldest first;
* `selectiveInput`: the selective input mode of the GUI manager;
* `boxes`: how many drop down boxes the drop down manager has handed out. -/
structure System where
  menu : GUIContextMenu
  calls : List Call
  selectiveInput : Bool
  boxes : Nat
  deriving DecidableEq, Repr

/-- Append one call to the recorded trace. -/
def System.record (c : Call) (s : System) : System :=
  { s with calls := s.calls ++ [c] }

/-! ## The collaborators as recorders -/

/-- Recorder for `GUIDropDownBoxManager::openDropDownBox`: logs the call and returns a handle
to a new box. -/
def GUIDropDownBoxManager.openDropDownBox (target window : Nat)
    (placement : GUIDropDownAreaPlacement) (dropDownData skin : Nat) (type : GUIDropDownType)
    (onClosedCallback : BoundCallback) (s : System) : GameObjectHandle × System :=
  (GameObjectHandle.mk s.boxes,
   { s.record (Call.openDropDownBox target window placement dropDownData skin type
        onClosedCallback) with boxes := s.boxes + 1 })

/-- Recorder for `GUIDropDownBoxManager::closeDropDownBox`: logs the call, nothing else. -/
def GUIDropDownBoxManager.closeDropDownBox (s : System) : System :=
  s.record Call.closeDropDownBox

/-- Recorder for `GUIManager::enableSelectiveInput`: logs the call and sets the mode. -/
def GUIManager.enableSelectiveInput (onOutsideClickCallback : BoundCallback) (s : System) :
    System :=
  { s.record (Call.enableSelectiveInput onOutsideClickCallback) with selectiveInput := true }

/-- Recorder for `GUIManager::addSelectiveInputWidget`: logs the call. -/
def GUIManager.addSelectiveInputWidget (widget : Nat) (s : System) : System :=
  s.record (Call.addSelectiveInputWidget widget)

/-- Recorder for `GUIManager::disableSelectiveInput`: logs the call and clears the mode. -/
def GUIManager.disableSelectiveInput (s : System) : System :=
  { s.record Call.disableSelectiveInput with selectiveInput := false }

/-! ## `GUIContextMenu` (BsGUIContextMenu.cpp) -/

/-- Store into the member `mContextMenuOpen`. -/
def System.setContextMenuOpen (b : Bool) (s : System) : System :=
  { s with menu := { s.menu with mContextMenuOpen := b } }

/-- Constructor `GUIContextMenu::GUIContextMenu() : GUIMenu(), mContextMenuOpen(false)`. -/
def GUIContextMenu.ctor (dropDownData : Nat) : GUIContextMenu :=
  { dropDownData := dropDownData, mContextMenuOpen := false }

/-- A freshly constructed menu next to collaborators that have received no call yet. -/
def System.fresh (dropDownData : Nat) : System :=
  { menu := GUIContextMenu.ctor dropDownData, calls := [], selectiveInput := false, boxes := 0 }

/-- Method `GUIContextMenu::open(const Int2& position, GUIWidget& widget)`. -/
def GUIContextMenu.open (position : Int2) (widget : GUIWidget) (s : System) : System :=
  let placement := GUIDropDownAreaPlacement.aroundPosition position
  let r := GUIDropDownBoxManager.openDropDownBox widget.getTarget widget.getOwnerWindow
    placement s.menu.getDropDownData widget.getSkin GUIDropDownType.ContextMenu
    BoundCallback.onMenuClosed s
  let dropDownBox := r.1
  let s1 := GUIManager.enableSelectiveInput BoundCallback.close r.2
  let s2 := GUIManager.addSelectiveInputWidget dropDownBox.get s1
  s2.setContextMenuOpen true

/-- Method `GUIContextMenu::onMenuClosed()`. -/
def GUIContextMenu.onMenuClosed (s : System) : System :=
  (GUIManager.disableSelectiveInput s).setContextMenuOpen false

/-- Method `GUIContextMenu::close()`, with the behaviour of
`GUIDropDownBoxManager::closeDropDownBox` as a parameter. -/
def GUIContextMenu.closeWith (closeDropDownBox : System → System) (s : System) : System :=
  if s.menu.mContextMenuOpen then
    let s1 := closeDropDownBox s
    let s2 := GUIManager.disableSelectiveInput s1
    s2.setContextMenuOpen false
  else
    s

/-- Method `GUIContextMenu::close()` against the recording drop down manager. -/
def GUIContextMenu.close (s : System) : System :=
  GUIContextMenu.closeWith GUIDropDownBoxManager.closeDropDownBox s

/-- Destructor `GUIContextMenu::~GUIContextMenu()`: its body is the single statement `close();`. -/
def GUIContextMenu.dtor (s : System) : System :=
  GUIContextMenu.close s

/-- Modelled from the spec: `GUIDropDownBoxManager::closeDropDownBox` is not part of the
sources at hand. Here the overlay subsystem "invokes a closure callback on its own dismissal
path": closing the box synchronously runs the `onClose` callback that `open` registered, which
is `GUIContextMenu::onMenuClosed`. -/
def GUIDropDownBoxManager.closeDropDownBoxNotifying (s : System) : System :=
  GUIContextMenu.onMenuClosed (GUIDropDownBoxManager.closeDropDownBox s)

/-- Method `GUIContextMenu::close()` against a drop down manager that notifies on close. -/
def GUIContextMenu.closeChained (s : System) : System :=
  GUIContextMenu.closeWith GUIDropDownBoxManager.closeDropDownBoxNotifying s

/-! ## Sequences of operations and the trace discipline -/

/-- A call a client can make on the menu's public interface. -/
inductive ApiCall where
  | open (position : Int2) (widget : GUIWidget)
  | close
  deriving DecidableEq, Repr

def ApiCall.apply (c : ApiCall) (s : System) : System :=
  match c with
  | ApiCall.open position widget => GUIContextMenu.open position widget s
  | ApiCall.close => GUIContextMenu.close s

/-- Run a sequence of client calls, first element first. -/
def runApi (cs : List ApiCall) (s : System) : System :=
  cs.foldl (fun acc c => c.apply acc) s

/-- Anything that can happen to the menu: a client call or the overlay's dismissal callback. -/
inductive Op where
  | open (position : Int2) (widget : GUIWidget)
  | close
  | onMenuClosed
  deriving DecidableEq, Repr

def Op.apply (o : Op) (s : System) : System :=
  match o with
  | Op.open position widget => GUIContextMenu.open position widget s
  | Op.close => GUIContextMenu.close s
  | Op.onMenuClosed => GUIContextMenu.onMenuClosed s

/-- Run a sequence of operations, first element first. -/
def run (os : List Op) (s : System) : System :=
  os.foldl (fun acc o => o.apply acc) s

/-- One step of the monitor for the input filter discipline. The state is `none` once two
`disableSelectiveInput` calls were seen with no `enableSelectiveInput` between them, and
otherwise `some pending`, where `pending` says that the last filter call was a disable. -/
def disableStep (st : Option Bool) (c : Call) : Option Bool :=
  match st with
  | none => none
  | some pending =>
    match c with
    | Call.disableSelectiveInput => if pending then none else some true
    | Call.enableSelectiveInput _ => some false
    | _ => some pending

/-- Monitor a whole trace, oldest call first. -/
def disableScan (cs : List Call) : Option Bool :=
  cs.foldl disableStep (some false)

/-- The relation the menu keeps with the GUI manager: the menu believes it is open exactly when
selective input is enabled. -/
def flagMatchesFilter (s : System) : Prop :=
  s.menu.mContextMenuOpen = s.selectiveInput

instance (s : System) : Decidable (flagMatchesFilter s) := by
  unfold flagMatchesFilter
  infer_instance

/-- Invariant behind the filter discipline: the monitor has not failed, and a pending disable
implies that the menu is closed. -/
def disciplineInv (s : System) : Prop :=
  disableScan s.calls = some false ∨
    (disableScan s.calls = some true ∧ s.menu.mContextMenuOpen = false)

/-! ## Texture creation front (BsTextureManager.h)

`TextureType` and `PixelFormat` are enumerations declared elsewhere; their enumerators are
represented by their numeric values. `UINT32` arguments are natural numbers (no arithmetic is
performed on them), `int` arguments are integers. -/

/-- Texture description: type, width, height, depth, mip count, pixel format, usage flags,
gamma correction flag, multisample count. -/
structure TextureDescriptor where
  texType : Nat
  width : Nat
  height : Nat
  depth : Nat
  numMips : Int
  format : Nat
  usage : Int
  hwGammaCorrection : Bool
  multisampleCount : Nat
  deriving DecidableEq, Repr

/-- Error taxonomy of resource creation. -/
inductive TextureError where
  | InvalidDescriptor
  | AllocationFailure
  deriving DecidableEq, Repr

/-- Sim side handle of a texture (`TexturePtr`), identified by a number. -/
structure TexturePtr where
  id : Nat
  deriving DecidableEq, Repr

/-- What the front manager knows about the device: the largest supported mip count and the
pure virtual `getNativeFormat(ttype, format, usage, hwGamma)`. -/
structure DeviceCaps where
  maxMips : Int
  getNativeFormat : Nat → Nat → Int → Bool → Nat

/-- Observable state around texture creation:
* `requests`: creation requests handed to the core context and not yet processed, oldest first;
* `internalCalls`: the `TextureCoreManager::createTextureInternal` calls made so far;
* `handles`: how many handles the front manager has given out. -/
structure RenderState where
  requests : List TextureDescriptor
  internalCalls : List TextureDescriptor
  handles : Nat
  deriving DecidableEq, Repr

/-- Modelled from the spec: the body of the nine argument `TextureManager::createTexture` is
not part of the sources at hand (the header only declares it). Following the specification it
"validates dimensions (>0), clamps mip-count to a device-supported maximum, and forwards to the
paired Core Factory through a cross-context request", a zero dimension being an
`InvalidDescriptor` error "surfaced to caller synchronously"; the forwarded format is the one
negotiated by `getNativeFormat`. -/
def TextureManager.createTexture (caps : DeviceCaps) (texType width height depth : Nat)
    (numMips : Int) (format : Nat) (usage : Int) (hwGammaCorrection : Bool)
    (multisampleCount : Nat) (s : RenderState) : Except TextureError TexturePtr × RenderState :=
  if width = 0 ∨ height = 0 ∨ depth = 0 then
    (Except.error TextureError.InvalidDescriptor, s)
  else
    let desc : TextureDescriptor :=
      { texType := texType, width := width, height := height, depth := depth,
        numMips := min numMips caps.maxMips,
        format := caps.getNativeFormat texType format usage hwGammaCorrection,
        usage := usage, hwGammaCorrection := hwGammaCorrection,
        multisampleCount := multisampleCount }
    (Except.ok (TexturePtr.mk s.handles),
     { s with requests := s.requests ++ [desc], handles := s.handles + 1 })

/-- Modelled from the spec: the core side is not part of the sources at hand either. The core
context takes the queued requests in submission order and calls the backend's
`createTextureInternal` once for each. -/
def TextureCoreManager.processRequests (s : RenderState) : RenderState :=
  { s with requests := [], internalCalls := s.internalCalls ++ s.requests }

/-- The overload of `TextureManager::createTexture` without a `depth` argument, as defined
inline in the header. The nine argument overload it forwards to is a parameter. -/
def TextureManager.createTextureNoDepth {ρ : Type}
    (createTexture : Nat → Nat → Nat → Nat → Int → Nat → Int → Bool → Nat → ρ)
    (texType width height : Nat) (numMips : Int) (format : Nat) (usage : Int)
    (hwGammaCorrection : Bool) (multisampleCount : Nat) : ρ :=
  createTexture texType width height 1 numMips format usage hwGammaCorrection multisampleCount

/-! ## Helper lemmas -/

theorem calls_record (c : Call) (s : System) : (s.record c).calls = s.calls ++ [c] := rfl

theorem disableScan_snoc (cs : List Call) (c : Call) :
    disableScan (cs ++ [c]) = disableStep (disableScan cs) c := by
  simp [disableScan, List.foldl_append]

theorem foldl_disableStep_none (cs : List Call) : cs.foldl disableStep none = none := by
  induction cs with
  | nil => rfl
  | cons c cs ih => simpa [List.foldl, disableStep] using ih

/-- While no `enableSelectiveInput` arrives, a pending disable stays pending or the monitor
has already failed. -/
theorem foldl_disableStep_pending (mid : List Call)
    (hmid : ∀ cb, Call.enableSelectiveInput cb ∉ mid) (st : Option Bool)
    (hst : st = some true ∨ st = none) :
    mid.foldl disableStep st = some true ∨ mid.foldl disableStep st = none := by
  induction mid generalizing st with
  | nil => simpa using hst
  | cons c cs ih =>
    have hcs : ∀ cb, Call.enableSelectiveInput cb ∉ cs := fun cb h =>
      hmid cb (List.mem_cons_of_mem _ h)
    simp only [List.foldl]
    apply ih hcs
    rcases hst with h | h
    · subst h
      cases c with
      | enableSelectiveInput cb => exact absurd (List.mem_cons_self _ _) (hmid cb)
      | disableSelectiveInput => right; rfl
      | openDropDownBox _ _ _ _ _ _ _ => left; rfl
      | closeDropDownBox => left; rfl
      | addSelectiveInputWidget _ => left; rfl
    · subst h
      right; rfl

/-- A trace the monitor accepts has an `enableSelectiveInput` between any two
`disableSelectiveInput` calls. -/
theorem enable_between_of_disableScan (pre mid post : List Call)
    (h : disableScan (pre ++ Call.disableSelectiveInput ::
      (mid ++ Call.disableSelectiveInput :: post)) ≠ none) :
    ∃ cb, Call.enableSelectiveInput cb ∈ mid := by
  by_contra hno
  have hmid : ∀ cb, Call.enableSelectiveInput cb ∉ mid := fun cb hcb => hno ⟨cb, hcb⟩
  apply h
  simp only [disableScan, List.foldl_append, List.foldl_cons]
  have h1 : disableStep (List.foldl disableStep (some false) pre) Call.disableSelectiveInput
      = some true ∨
      disableStep (List.foldl disableStep (some false) pre) Call.disableSelectiveInput
      = none := by
    cases List.foldl disableStep (some false) pre with
    | none => right; rfl
    | some p => cases p <;> simp [disableStep]
  have h2 := foldl_disableStep_pending mid hmid _ h1
  rcases h2 with h2 | h2 <;> rw [h2] <;> simp [disableStep, foldl_disableStep_none]

theorem disciplineInv_fresh (d : Nat) : disciplineInv (System.fresh d) := Or.inl rfl

theorem disciplineInv_open (position : Int2) (widget : GUIWidget) (s : System)
    (h : disciplineInv s) : disciplineInv (GUIContextMenu.open position widget s) := by
  left
  have hc : (GUIContextMenu.open position widget s).calls =
      ((s.calls ++ [Call.openDropDownBox widget.getTarget widget.getOwnerWindow
        (GUIDropDownAreaPlacement.aroundPosition position) s.menu.getDropDownData
        widget.getSkin GUIDropDownType.ContextMenu BoundCallback.onMenuClosed]) ++
        [Call.enableSelectiveInput BoundCallback.close]) ++
        [Call.addSelectiveInputWidget s.boxes] := rfl
  rw [hc, disableScan_snoc, disableScan_snoc, disableScan_snoc]
  rcases h with h | ⟨h, _⟩ <;> rw [h] <;> rfl

theorem disciplineInv_close (s : System) (h : disciplineInv s) :
    disciplineInv (GUIContextMenu.close s) := by
  cases hopen : s.menu.mContextMenuOpen with
  | false =>
    have : GUIContextMenu.close s = s := by
      simp [GUIContextMenu.close, GUIContextMenu.closeWith, hopen]
    rw [this]; exact h
  | true =>
    right
    have hc : (GUIContextMenu.close s).calls =
        (s.calls ++ [Call.closeDropDownBox]) ++ [Call.disableSelectiveInput] := by
      simp [GUIContextMenu.close, GUIContextMenu.closeWith, hopen,
        GUIManager.disableSelectiveInput, GUIDropDownBoxManager.closeDropDownBox,
        System.record, System.setContextMenuOpen]
    have hm : (GUIContextMenu.close s).menu.mContextMenuOpen = false := by
      simp [GUIContextMenu.close, GUIContextMenu.closeWith, hopen,
        System.setContextMenuOpen]
    refine ⟨?_, hm⟩
    rw [hc, disableScan_snoc, disableScan_snoc]
    rcases h with h | ⟨_, h⟩
    · rw [h]; rfl
    · rw [hopen] at h; cases h

theorem disciplineInv_runApi (cs : List ApiCall) (s : System) (h : disciplineInv s) :
    disciplineInv (runApi cs s) := by
  induction cs generalizing s with
  | nil => exact h
  | cons c cs ih =>
    simp only [runApi, List.foldl_cons]
    apply ih
    cases c with
    | «open» position widget => exact disciplineInv_open position widget s h
    | close => exact disciplineInv_close s h

/-- Against a drop down manager that runs the registered callback while closing, `close()` on
an Open menu records `closeDropDownBox` followed by two `disableSelectiveInput` calls: one made
by `onMenuClosed`, one made by `close()` itself after `closeDropDownBox` returned. -/
theorem closeChained_calls (s : System) (hopen : s.menu.mContextMenuOpen = true) :
    (GUIContextMenu.closeChained s).calls =
      s.calls ++ [Call.closeDropDownBox, Call.disableSelectiveInput,
        Call.disableSelectiveInput] := by
  simp [GUIContextMenu.closeChained, GUIContextMenu.closeWith, hopen,
    GUIDropDownBoxManager.closeDropDownBoxNotifying, GUIContextMenu.onMenuClosed,
    GUIManager.disableSelectiveInput, GUIDropDownBoxManager.closeDropDownBox, System.record,
    System.setContextMenuOpen]

theorem flagMatchesFilter_close (s : System) (h : flagMatchesFilter s) :
    flagMatchesFilter (GUIContextMenu.close s) := by
  cases hopen : s.menu.mContextMenuOpen with
  | false =>
    have : GUIContextMenu.close s = s := by
      simp [GUIContextMenu.close, GUIContextMenu.closeWith, hopen]
    rw [this]; exact h
  | true =>
    simp [flagMatchesFilter, GUIContextMenu.close, GUIContextMenu.closeWith, hopen,
      GUIManager.disableSelectiveInput, System.record, System.setContextMenuOpen]

theorem flagMatchesFilter_apply (o : Op) (s : System) (h : flagMatchesFilter s) :
    flagMatchesFilter (o.apply s) := by
  cases o with
  | «open» position widget => rfl
  | close => exact flagMatchesFilter_close s h
  | onMenuClosed => rfl

theorem flagMatchesFilter_run (os : List Op) (s : System) (h : flagMatchesFilter s) :
    flagMatchesFilter (run os s) := by
  induction os generalizing s with
  | nil => exact h
  | cons o os ih =>
    simp only [run, List.foldl_cons]
    exact ih _ (flagMatchesFilter_apply o s h)

/-! ## Claims about the context menu -/

/-- C1: `close()` on a menu that is already Closed is a no-op (the whole system, hence the state
and the recorded trace, is unchanged: neither `closeDropDownBox` nor `disableSelectiveInput` is
called), and for every starting state `close()` followed by `close()` leaves the same state and
trace as a single `close()`. -/
theorem close_closed_noop_and_idempotent :
    (∀ s : System, s.menu.mContextMenuOpen = false → GUIContextMenu.close s = s) ∧
    (∀ s : System, GUIContextMenu.close (GUIContextMenu.close s) = GUIContextMenu.close s) := by
  have hnoop : ∀ s : System, s.menu.mContextMenuOpen = false → GUIContextMenu.close s = s := by
    intro s h
    simp [GUIContextMenu.close, GUIContextMenu.closeWith, h]
  refine ⟨hnoop, ?_⟩
  intro s
  apply hnoop
  cases hopen : s.menu.mContextMenuOpen with
  | false => rw [hnoop s hopen]; exact hopen
  | true =>
    simp [GUIContextMenu.close, GUIContextMenu.closeWith, hopen, System.setContextMenuOpen]

theorem close_closed_noop_witness :
    GUIContextMenu.close (System.fresh 7) = System.fresh 7 ∧
    (GUIContextMenu.close (System.fresh 7)).calls = [] :=
  ⟨close_closed_noop_and_idempotent.1 (System.fresh 7) rfl,
   by rw [close_closed_noop_and_idempotent.1 (System.fresh 7) rfl]; rfl⟩

/-- C2: after every finite sequence of `open()` and `close()` calls on a freshly constructed
menu, whenever the recorded trace contains two `disableSelectiveInput` calls, some
`enableSelectiveInput` call lies between them. -/
theorem no_double_disable_without_enable (dropDownData : Nat) (cs : List ApiCall)
    (pre mid post : List Call)
    (h : (runApi cs (System.fresh dropDownData)).calls =
      pre ++ Call.disableSelectiveInput :: (mid ++ Call.disableSelectiveInput :: post)) :
    ∃ cb, Call.enableSelectiveInput cb ∈ mid := by
  apply enable_between_of_disableScan pre mid post
  rw [← h]
  have hinv := disciplineInv_runApi cs (System.fresh dropDownData)
    (disciplineInv_fresh dropDownData)
  rcases hinv with h1 | ⟨h1, _⟩ <;> rw [h1] <;> simp

theorem no_double_disable_without_enable_witness :
    ∃ cb, Call.enableSelectiveInput cb ∈
      [Call.openDropDownBox 3 4 (GUIDropDownAreaPlacement.aroundPosition ⟨5, 6⟩) 7 5
         GUIDropDownType.ContextMenu BoundCallback.onMenuClosed,
       Call.enableSelectiveInput BoundCallback.close,
       Call.addSelectiveInputWidget 1,
       Call.closeDropDownBox] :=
  no_double_disable_without_enable 7
    [ApiCall.open ⟨1, 2⟩ ⟨3, 4, 5⟩, ApiCall.close, ApiCall.open ⟨5, 6⟩ ⟨3, 4, 5⟩, ApiCall.close]
    [Call.openDropDownBox 3 4 (GUIDropDownAreaPlacement.aroundPosition ⟨1, 2⟩) 7 5
       GUIDropDownType.ContextMenu BoundCallback.onMenuClosed,
     Call.enableSelectiveInput BoundCallback.close,
     Call.addSelectiveInputWidget 0,
     Call.closeDropDownBox]
    _ [] (by decide)

/-- C3: from every prior state, `open(position, widget)` appends exactly three collaborator
calls, in this order: `openDropDownBox` with the widget's target and owner window, the placement
`aroundPosition(position)`, the menu's drop down data, the widget's skin and kind `ContextMenu`;
then `enableSelectiveInput`; then `addSelectiveInputWidget` with the handle `openDropDownBox`
returned. It ends with `mContextMenuOpen == true`. -/
theorem open_calls_and_state (position : Int2) (widget : GUIWidget) (s : System) :
    (GUIContextMenu.open position widget s).calls =
      s.calls ++
        [Call.openDropDownBox widget.getTarget widget.getOwnerWindow
           (GUIDropDownAreaPlacement.aroundPosition position) s.menu.getDropDownData
           widget.getSkin GUIDropDownType.ContextMenu BoundCallback.onMenuClosed,
         Call.enableSelectiveInput BoundCallback.close,
         Call.addSelectiveInputWidget
           (GUIDropDownBoxManager.openDropDownBox widget.getTarget widget.getOwnerWindow
             (GUIDropDownAreaPlacement.aroundPosition position) s.menu.getDropDownData
             widget.getSkin GUIDropDownType.ContextMenu BoundCallback.onMenuClosed s).1.get] ∧
    (GUIContextMenu.open position widget s).menu.mContextMenuOpen = true := by
  constructor
  · simp [GUIContextMenu.open, GUIManager.addSelectiveInputWidget,
      GUIManager.enableSelectiveInput, GUIDropDownBoxManager.openDropDownBox, System.record,
      System.setContextMenuOpen]
  · rfl

/-- C4: `close()` on an Open menu appends exactly `closeDropDownBox` and then
`disableSelectiveInput` to the trace (one call each, no other collaborator call) and leaves
`mContextMenuOpen == false`. -/
theorem close_open_calls_and_state (s : System) (hopen : s.menu.mContextMenuOpen = true) :
    (GUIContextMenu.close s).calls =
      s.calls ++ [Call.closeDropDownBox, Call.disableSelectiveInput] ∧
    (GUIContextMenu.close s).menu.mContextMenuOpen = false := by
  simp [GUIContextMenu.close, GUIContextMenu.closeWith, hopen,
    GUIManager.disableSelectiveInput, GUIDropDownBoxManager.closeDropDownBox, System.record,
    System.setContextMenuOpen]

theorem close_open_calls_and_state_witness :
    (GUIContextMenu.close (GUIContextMenu.open ⟨1, 2⟩ ⟨3, 4, 5⟩ (System.fresh 7))).calls =
      (GUIContextMenu.open ⟨1, 2⟩ ⟨3, 4, 5⟩ (System.fresh 7)).calls ++
        [Call.closeDropDownBox, Call.disableSelectiveInput] ∧
    (GUIContextMenu.close
      (GUIContextMenu.open ⟨1, 2⟩ ⟨3, 4, 5⟩ (System.fresh 7))).menu.mContextMenuOpen = false :=
  close_open_calls_and_state (GUIContextMenu.open ⟨1, 2⟩ ⟨3, 4, 5⟩ (System.fresh 7)) rfl

/-- C5: when `onMenuClosed` fires on an Open menu it appends exactly one
`disableSelectiveInput` to the trace and nothing else (so no `closeDropDownBox`), sets
`mContextMenuOpen` to false, reaches the same menu state and input filter mode as `close()`
would, and a `close()` issued afterwards changes nothing (makes no collaborator call). -/
theorem onMenuClosed_converges (s : System) (hopen : s.menu.mContextMenuOpen = true) :
    (GUIContextMenu.onMenuClosed s).calls = s.calls ++ [Call.disableSelectiveInput] ∧
    (GUIContextMenu.onMenuClosed s).calls.count Call.closeDropDownBox =
      s.calls.count Call.closeDropDownBox ∧
    (GUIContextMenu.onMenuClosed s).menu.mContextMenuOpen = false ∧
    (GUIContextMenu.onMenuClosed s).menu = (GUIContextMenu.close s).menu ∧
    (GUIContextMenu.onMenuClosed s).selectiveInput = (GUIContextMenu.close s).selectiveInput ∧
    GUIContextMenu.close (GUIContextMenu.onMenuClosed s) = GUIContextMenu.onMenuClosed s := by
  refine ⟨rfl, ?_, rfl, ?_, ?_, ?_⟩
  · have hc : (GUIContextMenu.onMenuClosed s).calls = s.calls ++ [Call.disableSelectiveInput] :=
      rfl
    rw [hc, List.count_append]
    simp
  · simp [GUIContextMenu.close, GUIContextMenu.closeWith, hopen, GUIContextMenu.onMenuClosed,
      GUIManager.disableSelectiveInput, GUIDropDownBoxManager.closeDropDownBox, System.record,
      System.setContextMenuOpen]
  · simp [GUIContextMenu.close, GUIContextMenu.closeWith, hopen, GUIContextMenu.onMenuClosed,
      GUIManager.disableSelectiveInput, GUIDropDownBoxManager.closeDropDownBox, System.record,
      System.setContextMenuOpen]
  · simp [GUIContextMenu.close, GUIContextMenu.closeWith, GUIContextMenu.onMenuClosed,
      System.setContextMenuOpen]

theorem onMenuClosed_converges_witness :
    (GUIContextMenu.onMenuClosed (GUIContextMenu.open ⟨1, 2⟩ ⟨3, 4, 5⟩ (System.fresh 7))).calls =
      (GUIContextMenu.open ⟨1, 2⟩ ⟨3, 4, 5⟩ (System.fresh 7)).calls ++
        [Call.disableSelectiveInput] :=
  (onMenuClosed_converges (GUIContextMenu.open ⟨1, 2⟩ ⟨3, 4, 5⟩ (System.fresh 7)) rfl).1

/-- C6 (behaviour of the code at the failing input): with `closeDropDownBox` synchronously
running the `onMenuClosed` callback that `open()` registered, `close()` on the menu opened from a
fresh state records `closeDropDownBox`, then `disableSelectiveInput` (from `onMenuClosed`), then
`disableSelectiveInput` again (from `close()` itself): two filter teardowns in total after a
single `enableSelectiveInput`, not one. -/
theorem closeChained_double_teardown :
    (GUIContextMenu.closeChained
      (GUIContextMenu.open ⟨1, 2⟩ ⟨3, 4, 5⟩ (System.fresh 7))).calls =
      [Call.openDropDownBox 3 4 (GUIDropDownAreaPlacement.aroundPosition ⟨1, 2⟩) 7 5
         GUIDropDownType.ContextMenu BoundCallback.onMenuClosed,
       Call.enableSelectiveInput BoundCallback.close,
       Call.addSelectiveInputWidget 0,
       Call.closeDropDownBox,
       Call.disableSelectiveInput,
       Call.disableSelectiveInput] ∧
    (GUIContextMenu.closeChained
      (GUIContextMenu.open ⟨1, 2⟩ ⟨3, 4, 5⟩ (System.fresh 7))).calls.count
        Call.disableSelectiveInput = 2 ∧
    (GUIContextMenu.closeChained
      (GUIContextMenu.open ⟨1, 2⟩ ⟨3, 4, 5⟩ (System.fresh 7))).menu.mContextMenuOpen = false := by
  decide

/-- C8: with the GUI manager's selective input mode modelled as a boolean that starts false, is
set by `enableSelectiveInput` and cleared by `disableSelectiveInput`, the predicate
"`mContextMenuOpen` equals that boolean" holds for a freshly constructed menu, is preserved by
each of `open()`, `close()` and `onMenuClosed()`, and so holds after every finite sequence of
them. -/
theorem flag_matches_filter_invariant :
    (∀ d : Nat, flagMatchesFilter (System.fresh d)) ∧
    (∀ (s : System) (position : Int2) (widget : GUIWidget),
      flagMatchesFilter s → flagMatchesFilter (GUIContextMenu.open position widget s)) ∧
    (∀ s : System, flagMatchesFilter s → flagMatchesFilter (GUIContextMenu.close s)) ∧
    (∀ s : System, flagMatchesFilter s → flagMatchesFilter (GUIContextMenu.onMenuClosed s)) ∧
    (∀ (d : Nat) (os : List Op), flagMatchesFilter (run os (System.fresh d))) :=
  ⟨fun _ => rfl, fun _ _ _ _ => rfl, flagMatchesFilter_close, fun _ _ => rfl,
   fun d os => flagMatchesFilter_run os (System.fresh d) rfl⟩

theorem flag_matches_filter_invariant_witness :
    flagMatchesFilter
      (run [Op.open ⟨1, 2⟩ ⟨3, 4, 5⟩, Op.onMenuClosed, Op.close, Op.open ⟨0, 0⟩ ⟨3, 4, 5⟩,
        Op.close] (System.fresh 7)) ∧
    flagMatchesFilter (GUIContextMenu.close (GUIContextMenu.open ⟨1, 2⟩ ⟨3, 4, 5⟩ (System.fresh 7))) :=
  ⟨flag_matches_filter_invariant.2.2.2.2 7 _,
   flag_matches_filter_invariant.2.2.1 _
     (flag_matches_filter_invariant.2.1 _ _ _ (flag_matches_filter_invariant.1 7))⟩

/-- C10: the destructor performs exactly a `close()`: the resulting system is the one `close()`
produces, and the calls it adds are `closeDropDownBox` then `disableSelectiveInput` (once each)
when the menu is Open at destruction, and none when it is Closed. -/
theorem dtor_performs_close (s : System) :
    GUIContextMenu.dtor s = GUIContextMenu.close s ∧
    (GUIContextMenu.dtor s).calls =
      s.calls ++ (if s.menu.mContextMenuOpen then
        [Call.closeDropDownBox, Call.disableSelectiveInput] else []) := by
  refine ⟨rfl, ?_⟩
  cases hopen : s.menu.mContextMenuOpen <;>
    simp [GUIContextMenu.dtor, GUIContextMenu.close, GUIContextMenu.closeWith, hopen,
      GUIManager.disableSelectiveInput, GUIDropDownBoxManager.closeDropDownBox, System.record,
      System.setContextMenuOpen]

/-! ## Claims about texture creation -/

/-- C7: a `createTexture` request with `width == 0` fails with `InvalidDescriptor`, returned
directly to the caller, whatever the other arguments are; the state is untouched: no request is
queued for the core context, and processing the queue afterwards yields exactly the
`createTextureInternal` calls it would have yielded without the request. -/
theorem createTexture_zero_width (caps : DeviceCaps) (texType height depth : Nat)
    (numMips : Int) (format : Nat) (usage : Int) (hwGammaCorrection : Bool)
    (multisampleCount : Nat) (s : RenderState) :
    TextureManager.createTexture caps texType 0 height depth numMips format usage
      hwGammaCorrection multisampleCount s =
      (Except.error TextureError.InvalidDescriptor, s) ∧
    (TextureManager.createTexture caps texType 0 height depth numMips format usage
      hwGammaCorrection multisampleCount s).2.internalCalls = s.internalCalls ∧
    (TextureCoreManager.processRequests
      (TextureManager.createTexture caps texType 0 height depth numMips format usage
        hwGammaCorrection multisampleCount s).2).internalCalls =
      (TextureCoreManager.processRequests s).internalCalls := by
  have h : TextureManager.createTexture caps texType 0 height depth numMips format usage
      hwGammaCorrection multisampleCount s =
      (Except.error TextureError.InvalidDescriptor, s) := by
    simp [TextureManager.createTexture]
  rw [h]
  exact ⟨rfl, rfl, rfl⟩

/-- C9: whatever the nine argument overload does, the overload without `depth` returns exactly
what that overload returns when called with `depth = 1` and every other argument forwarded
unchanged in its own position. -/
theorem createTextureNoDepth_forwards {ρ : Type}
    (createTexture : Nat → Nat → Nat → Nat → Int → Nat → Int → Bool → Nat → ρ)
    (texType width height : Nat) (numMips : Int) (format : Nat) (usage : Int)
    (hwGammaCorrection : Bool) (multisampleCount : Nat) :
    TextureManager.createTextureNoDepth createTexture texType width height numMips format usage
      hwGammaCorrection multisampleCount =
    createTexture texType width height 1 numMips format usage hwGammaCorrection
      multisampleCount := rfl

end BansheeEngine
